import Mathlib

/-!
Verification development for the boxarr configuration core
(`src/utils/yaml_loader.py`, `src/utils/config.py`).

The Python code is shallowly embedded: YAML values become an inductive
`Yaml` type, the Python string operations used by the code (`str.strip`,
`str.lower`, `str.isspace`, truthiness, `a or b`) become executable Lean
functions, the regex substitution of the token interpolator becomes a
recursive scanner with the same matching semantics, and the mutating
merge (`Settings.load_from_yaml`) becomes a pure fold over the parsed
document that returns an updated record.  Fallible Python code
(uncaught exceptions) is modelled with `Except`.
-/

namespace Boxarr

/-- YAML values as produced by `yaml.safe_load`: scalars, sequences and
mappings.  Mappings keep insertion order as an association list, which is
exactly the iteration order of the Python `dict` the merge loop walks.
(Floats are not needed by any claim and are omitted.) -/
inductive Yaml where
  | null
  | bool (b : Bool)
  | int (n : Int)
  | str (s : String)
  | list (items : List Yaml)
  | map (entries : List (String × Yaml))

/-- Python truthiness (`if value:`) for the embedded YAML values:
`None`, `False`, `0`, `""`, `[]` and `\x7b\x7d` are falsy. -/
def pyTruthy : Yaml → Bool
  | .null => false
  | .bool b => b
  | .int n => n != 0
  | .str s => s ≠ ""
  | .list items => !items.isEmpty
  | .map entries => !entries.isEmpty

/-- Python `str(value)` for the embedded YAML scalars.  The claims only
ever apply it to strings (`str` of a `Path` is its path text). -/
def pyStr : Yaml → String
  | .null => "None"
  | .bool b => if b then "True" else "False"
  | .int n => toString n
  | .str s => s
  | .list _ => "<list>"
  | .map _ => "<dict>"

/-- Python `default or fallback` on an optional string argument:
`None` and the empty string are falsy and select the fallback. -/
def pyOrElse (d : Option String) (fallback : String) : String :=
  match d with
  | none => fallback
  | some s => if s = "" then fallback else s

/-- Python `ch.isspace()` restricted to the ASCII whitespace characters;
the claims exercise only ASCII input. -/
def isPySpace (c : Char) : Bool :=
  c = ' ' || c = '\t' || c = '\n' || c = '\x0d' || c = '\x0b' || c = '\x0c'

/-- Characters of `s.strip()`: drop leading and trailing whitespace. -/
def stripChars (l : List Char) : List Char :=
  ((l.dropWhile isPySpace).reverse.dropWhile isPySpace).reverse

/-- Python `s.strip()`. -/
def pyStrip (s : String) : String := ⟨stripChars s.data⟩

/-- Python `s.lower()`; `Char.toLower` matches Python on ASCII, which is
all the claims use. -/
def pyLower (s : String) : String := ⟨s.data.map Char.toLower⟩

/-!
## Token interpolator (`yaml_loader._path_constructor`)

The source substitutes, left to right, every match of the regex
`\$\x7b([^}^{]+)\x7d` in a scalar, replacing it by
`os.environ.get(envparts[0], envparts[1])` where
`envparts = (match.group(1) + ":").split(":")`.

The character class `[^}^{]` admits any character other than `\x7d`,
`^` and `\x7b`, and it must occur at least once, so at a given
occurrence of the two characters `$\x7b` the regex matches exactly when
the next `\x7d`, `\x7b` or `^` in the remaining text is a `\x7d` that is
not immediately adjacent; the content is everything up to that `\x7d`.
`grabContent` computes exactly that.  `re.sub` scans for the leftmost
match, substitutes, and resumes after the match; on a failed attempt it
advances by one character — `interpolate` below reproduces this. -/

/-- Scan the text following an opening `$\x7b`.  Returns
`some (content, rest)` when a closing `\x7d` is reached before any `\x7b`
or `^` (content = the characters before it, rest = the characters after
it), `none` otherwise. -/
def grabContent : List Char → Option (List Char × List Char)
  | [] => none
  | c :: rest =>
    if c = '}' then some ([], rest)
    else if c = '{' ∨ c = '^' then none
    else
      match grabContent rest with
      | some (content, r) => some (c :: content, r)
      | none => none

theorem grabContent_length :
    ∀ (l content r : List Char), grabContent l = some (content, r) →
      r.length < l.length := by
  intro l
  induction l with
  | nil => intro content r h; simp [grabContent] at h
  | cons c rest ih =>
    intro content r h
    simp only [grabContent] at h
    split at h
    · simp only [Option.some.injEq, Prod.mk.injEq] at h
      rw [← h.2]
      simp only [List.length_cons]
      omega
    · split at h
      · exact absurd h (by simp)
      · split at h
        · rename_i content0 r0 heq
          simp only [Option.some.injEq, Prod.mk.injEq] at h
          have := ih content0 r0 heq
          rw [← h.2]
          simp only [List.length_cons]
          omega
        · exact absurd h (by simp)

/-- The replacement performed for one matched placeholder: the matched
content plus a trailing colon is split on colons; the first segment is
the variable name, the second the default; the environment value wins
when the variable is bound (even to the empty string). -/
def subst (env : String → Option String) (content : List Char) : List Char :=
  let name : List Char := content.takeWhile (fun c => c ≠ ':')
  let dflt : List Char :=
    match content.dropWhile (fun c => c ≠ ':') with
    | [] => []
    | _ :: rest => rest.takeWhile (fun c => c ≠ ':')
  ((env ⟨name⟩).getD ⟨dflt⟩).data

/-- Left-to-right regex substitution of `\$\x7b([^}^{]+)\x7d`, as
performed by `_var_matcher.sub(replace_fn, node.value)`. -/
def interpolate (env : String → Option String) : List Char → List Char
  | [] => []
  | '$' :: '{' :: rest =>
    match h : grabContent rest with
    | some (c :: content, r) => subst env (c :: content) ++ interpolate env r
    | _ => '$' :: interpolate env ('{' :: rest)
  | c :: rest => c :: interpolate env rest
  termination_by l => l.length
  decreasing_by
    · have := grabContent_length rest _ _ h
      simp only [List.length_cons]
      omega
    · simp only [List.length_cons]; omega
    · simp only [List.length_cons]; omega

/-- String-level wrapper of the interpolator. -/
def interpolateStr (env : String → Option String) (s : String) : String :=
  ⟨interpolate env s.data⟩

/-!
## Document loader (`yaml_loader.load_yaml`)

The file system and the YAML library are external collaborators; they
are modelled by their observable outcomes.  `open` can fail with
`FileNotFoundError` or `PermissionError`; `yaml.safe_load` can succeed,
fail with `yaml.parser.ParserError`, or fail with an exception that is
not a `ParserError` (for example `yaml.scanner.ScannerError`, raised on
lexically invalid input such as a tab used in indentation, or a
`UnicodeDecodeError` from reading a non-UTF-8 file).  The source's
`except (FileNotFoundError, PermissionError, ParserError)` clause
catches exactly the first three outcomes. -/

/-- Outcome of opening and reading a file. -/
inductive ReadResult where
  | notFound
  | permissionDenied
  | content (text : String)

/-- Outcome of `yaml.safe_load` on the file's text. -/
inductive ParseOutcome where
  | ok (doc : Yaml)
  | parserError
  | otherError

/-- Embedding of `load_yaml`: returns the parsed document, or an empty
mapping when the file is missing, unreadable, or fails with a
`ParserError`; any other exception propagates (`Except.error`). -/
def load_yaml (fs : String → ReadResult) (parse : String → ParseOutcome)
    (path : String) : Except Unit Yaml :=
  match fs path with
  | .notFound => .ok (.map [])
  | .permissionDenied => .ok (.map [])
  | .content text =>
    match parse text with
    | .ok doc => .ok doc
    | .parserError => .ok (.map [])
    | .otherError => .error ()

/-!
## Settings model (`config.Settings`)

The pydantic model is embedded as a record.  Because the source mutates
it with `setattr` and pydantic's `validate_assignment` option is not
enabled in `model_config`, an assigned field holds the raw assigned
object, whatever its type; the fields are therefore `Yaml`-typed
(dynamic), as in Python.  At construction time pydantic does validate,
and the string-valued enums compare equal to their value strings, so a
validated enum field is represented by its value string.
`radarr_root_folder_config` is kept structured because both the
constructor and the dedicated merge branch build a validated
`RootFolderConfig` for it. -/

/-- One genre-routing rule (`config.RootFolderMapping`), as validated by
pydantic: genres is a list of strings, root_folder a string, priority an
integer defaulting to 0. -/
structure RootFolderMapping where
  genres : List String
  root_folder : String
  priority : Int

/-- Routing configuration (`config.RootFolderConfig`).  The `enabled`
flag stays `Yaml`-typed: the merge branch assigns `value["enabled"]`
to it without validation, so any YAML value can end up there; the code
only ever tests its truthiness. -/
structure RootFolderConfig where
  enabled : Yaml
  mappings : List RootFolderMapping

/-- The values of `MinimumAvailabilityEnum`. -/
def minimumAvailabilityValues : List String :=
  ["announced", "inCinemas", "released", "preDb"]

/-- The `MinimumAvailabilityEnum(value)` constructor call: succeeds
exactly on the enum's value strings, raises (here `none`) otherwise;
non-string YAML values always raise. -/
def parseMinimumAvailability : Yaml → Option String
  | .str s => if minimumAvailabilityValues.contains s then some s else none
  | _ => none

/-- Remapping of the deprecated `preDb` value performed by the merge. -/
def remapPreDb (v : String) : String :=
  if v = "preDb" then "announced" else v

/-- The values of `ThemeEnum` (including the two legacy aliases, which
remain members of the enum). -/
def themeValues : List String :=
  ["light", "dark", "auto", "purple", "blue"]

/-- The `migrate_legacy_theme` pre-validator: rewrites the legacy
aliases to `light`, leaves everything else alone.  It runs at
construction (pre=True) but not on plain attribute assignment. -/
def migrate_legacy_theme (v : String) : String :=
  if v = "purple" ∨ v = "PURPLE" ∨ v = "blue" ∨ v = "BLUE" then "light" else v

/-- Theme validation at construction time: the pre-validator runs, then
the value must be a member of `ThemeEnum`. -/
def themeAtConstruction (v : String) : Except Unit String :=
  let v2 := migrate_legacy_theme v
  if themeValues.contains v2 then .ok v2 else .error ()

/-- The embedded `Settings` record; field names and order follow the
source.  Every plain field is `Yaml`-typed (see the section comment). -/
structure Settings where
  radarr_url : Yaml
  radarr_api_key : Yaml
  radarr_root_folder : Yaml
  radarr_quality_profile_default : Yaml
  radarr_quality_profile_upgrade : Yaml
  radarr_monitor_option : Yaml
  radarr_minimum_availability_enabled : Yaml
  radarr_minimum_availability : Yaml
  radarr_search_for_movie : Yaml
  radarr_root_folder_config : RootFolderConfig
  boxarr_host : Yaml
  boxarr_port : Yaml
  boxarr_api_port : Yaml
  boxarr_url_base : Yaml
  boxarr_scheduler_enabled : Yaml
  boxarr_scheduler_cron : Yaml
  boxarr_scheduler_timezone : Yaml
  boxarr_ui_theme : Yaml
  boxarr_ui_cards_per_row_mobile : Yaml
  boxarr_ui_cards_per_row_tablet : Yaml
  boxarr_ui_cards_per_row_desktop : Yaml
  boxarr_ui_cards_per_row_4k : Yaml
  boxarr_ui_show_descriptions : Yaml
  boxarr_features_auto_add : Yaml
  boxarr_features_quality_upgrade : Yaml
  boxarr_features_notifications : Yaml
  boxarr_features_auto_tag_enabled : Yaml
  boxarr_features_auto_tag_text : Yaml
  boxarr_features_auto_add_limit : Yaml
  boxarr_features_auto_add_genre_filter_enabled : Yaml
  boxarr_features_auto_add_genre_filter_mode : Yaml
  boxarr_features_auto_add_genre_whitelist : Yaml
  boxarr_features_auto_add_genre_blacklist : Yaml
  boxarr_features_auto_add_rating_filter_enabled : Yaml
  boxarr_features_auto_add_rating_whitelist : Yaml
  boxarr_features_auto_add_ignore_rereleases : Yaml
  boxarr_data_history_retention_days : Yaml
  boxarr_data_cache_ttl_seconds : Yaml
  radarr_cache_ttl_seconds : Yaml
  boxarr_data_directory : Yaml
  log_level : Yaml
  log_format : Yaml

/-- The `validate_api_key` validator on the default empty key: the
`RADARR_API_KEY` environment value is used when it is set and
non-empty, otherwise the key stays empty. -/
def apiKeyFromEnv (env : String → Option String) : String :=
  match env "RADARR_API_KEY" with
  | some k => if k = "" then "" else k
  | none => ""

/-- The settings produced by `Settings(boxarr_data_directory=Path(dd))`
with every other field at its declared default, after the validators
run on those defaults (`boxarr_url_base` strips slashes from `""`
giving `""`; the auto-tag default `"boxarr"` passes its validator;
ports 8888/8889 differ; the API-key validator consults the
environment).  The generic per-field environment binding that
pydantic-settings performs is library behaviour outside the embedded
source and is not modelled; no claim depends on it. -/
def defaultSettings (env : String → Option String) (dd : String) : Settings where
  radarr_url := .str "http://localhost:7878"
  radarr_api_key := .str (apiKeyFromEnv env)
  radarr_root_folder := .str "/movies"
  radarr_quality_profile_default := .str "HD-1080p"
  radarr_quality_profile_upgrade := .str "Ultra-HD"
  radarr_monitor_option := .str "movieOnly"
  radarr_minimum_availability_enabled := .bool false
  radarr_minimum_availability := .str "announced"
  radarr_search_for_movie := .bool true
  radarr_root_folder_config := ⟨.bool false, []⟩
  boxarr_host := .str "0.0.0.0"
  boxarr_port := .int 8888
  boxarr_api_port := .int 8889
  boxarr_url_base := .str ""
  boxarr_scheduler_enabled := .bool true
  boxarr_scheduler_cron := .str "0 23 * * 2"
  boxarr_scheduler_timezone := .str "America/New_York"
  boxarr_ui_theme := .str "light"
  boxarr_ui_cards_per_row_mobile := .int 1
  boxarr_ui_cards_per_row_tablet := .int 3
  boxarr_ui_cards_per_row_desktop := .int 5
  boxarr_ui_cards_per_row_4k := .int 5
  boxarr_ui_show_descriptions := .bool true
  boxarr_features_auto_add := .bool false
  boxarr_features_quality_upgrade := .bool true
  boxarr_features_notifications := .bool false
  boxarr_features_auto_tag_enabled := .bool true
  boxarr_features_auto_tag_text := .str "boxarr"
  boxarr_features_auto_add_limit := .int 10
  boxarr_features_auto_add_genre_filter_enabled := .bool false
  boxarr_features_auto_add_genre_filter_mode := .str "blacklist"
  boxarr_features_auto_add_genre_whitelist := .list []
  boxarr_features_auto_add_genre_blacklist := .list []
  boxarr_features_auto_add_rating_filter_enabled := .bool false
  boxarr_features_auto_add_rating_whitelist := .list []
  boxarr_features_auto_add_ignore_rereleases := .bool false
  boxarr_data_history_retention_days := .int 90
  boxarr_data_cache_ttl_seconds := .int 3600
  radarr_cache_ttl_seconds := .int 120
  boxarr_data_directory := .str dd
  log_level := .str "INFO"
  log_format := .str "%(asctime)s - %(name)s - %(levelname)s - %(message)s"

/-- The model's field names, used by the merge's `hasattr` probes.
(`hasattr` is also true for the model's methods and properties, but a
subsequent `setattr` on such a name raises in pydantic; no claim
involves a document key whose mapped name collides with a method, so
those names are out of the modelled scope.) -/
def settingsFieldNames : List String :=
  ["radarr_url", "radarr_api_key", "radarr_root_folder",
   "radarr_quality_profile_default", "radarr_quality_profile_upgrade",
   "radarr_monitor_option", "radarr_minimum_availability_enabled",
   "radarr_minimum_availability", "radarr_search_for_movie",
   "radarr_root_folder_config", "boxarr_host", "boxarr_port",
   "boxarr_api_port", "boxarr_url_base", "boxarr_scheduler_enabled",
   "boxarr_scheduler_cron", "boxarr_scheduler_timezone", "boxarr_ui_theme",
   "boxarr_ui_cards_per_row_mobile", "boxarr_ui_cards_per_row_tablet",
   "boxarr_ui_cards_per_row_desktop", "boxarr_ui_cards_per_row_4k",
   "boxarr_ui_show_descriptions", "boxarr_features_auto_add",
   "boxarr_features_quality_upgrade", "boxarr_features_notifications",
   "boxarr_features_auto_tag_enabled", "boxarr_features_auto_tag_text",
   "boxarr_features_auto_add_limit",
   "boxarr_features_auto_add_genre_filter_enabled",
   "boxarr_features_auto_add_genre_filter_mode",
   "boxarr_features_auto_add_genre_whitelist",
   "boxarr_features_auto_add_genre_blacklist",
   "boxarr_features_auto_add_rating_filter_enabled",
   "boxarr_features_auto_add_rating_whitelist",
   "boxarr_features_auto_add_ignore_rereleases",
   "boxarr_data_history_retention_days", "boxarr_data_cache_ttl_seconds",
   "radarr_cache_ttl_seconds", "boxarr_data_directory", "log_level",
   "log_format"]

/-- The merge's `hasattr(self, name)` probe, restricted to field names
(see `settingsFieldNames`). -/
def hasAttr (name : String) : Bool := settingsFieldNames.contains name

/-- The merge's raw `setattr(self, name, value)`: stores the raw value
in the named field — no validator runs, because `validate_assignment`
is not enabled on the model.  The one structured field,
`radarr_root_folder_config`, is skipped here: its dedicated merge
branch never reaches the generic `setattr`, and a top-level document
key aimed directly at it is outside the claims' scope. -/
def setAttrY (s : Settings) (name : String) (v : Yaml) : Settings :=
  if name = "radarr_url" then { s with radarr_url := v }
  else if name = "radarr_api_key" then { s with radarr_api_key := v }
  else if name = "radarr_root_folder" then { s with radarr_root_folder := v }
  else if name = "radarr_quality_profile_default" then
    { s with radarr_quality_profile_default := v }
  else if name = "radarr_quality_profile_upgrade" then
    { s with radarr_quality_profile_upgrade := v }
  else if name = "radarr_monitor_option" then { s with radarr_monitor_option := v }
  else if name = "radarr_minimum_availability_enabled" then
    { s with radarr_minimum_availability_enabled := v }
  else if name = "radarr_minimum_availability" then
    { s with radarr_minimum_availability := v }
  else if name = "radarr_search_for_movie" then
    { s with radarr_search_for_movie := v }
  else if name = "boxarr_host" then { s with boxarr_host := v }
  else if name = "boxarr_port" then { s with boxarr_port := v }
  else if name = "boxarr_api_port" then { s with boxarr_api_port := v }
  else if name = "boxarr_url_base" then { s with boxarr_url_base := v }
  else if name = "boxarr_scheduler_enabled" then
    { s with boxarr_scheduler_enabled := v }
  else if name = "boxarr_scheduler_cron" then { s with boxarr_scheduler_cron := v }
  else if name = "boxarr_scheduler_timezone" then
    { s with boxarr_scheduler_timezone := v }
  else if name = "boxarr_ui_theme" then { s with boxarr_ui_theme := v }
  else if name = "boxarr_ui_cards_per_row_mobile" then
    { s with boxarr_ui_cards_per_row_mobile := v }
  else if name = "boxarr_ui_cards_per_row_tablet" then
    { s with boxarr_ui_cards_per_row_tablet := v }
  else if name = "boxarr_ui_cards_per_row_desktop" then
    { s with boxarr_ui_cards_per_row_desktop := v }
  else if name = "boxarr_ui_cards_per_row_4k" then
    { s with boxarr_ui_cards_per_row_4k := v }
  else if name = "boxarr_ui_show_descriptions" then
    { s with boxarr_ui_show_descriptions := v }
  else if name = "boxarr_features_auto_add" then
    { s with boxarr_features_auto_add := v }
  else if name = "boxarr_features_quality_upgrade" then
    { s with boxarr_features_quality_upgrade := v }
  else if name = "boxarr_features_notifications" then
    { s with boxarr_features_notifications := v }
  else if name = "boxarr_features_auto_tag_enabled" then
    { s with boxarr_features_auto_tag_enabled := v }
  else if name = "boxarr_features_auto_tag_text" then
    { s with boxarr_features_auto_tag_text := v }
  else if name = "boxarr_features_auto_add_limit" then
    { s with boxarr_features_auto_add_limit := v }
  else if name = "boxarr_features_auto_add_genre_filter_enabled" then
    { s with boxarr_features_auto_add_genre_filter_enabled := v }
  else if name = "boxarr_features_auto_add_genre_filter_mode" then
    { s with boxarr_features_auto_add_genre_filter_mode := v }
  else if name = "boxarr_features_auto_add_genre_whitelist" then
    { s with boxarr_features_auto_add_genre_whitelist := v }
  else if name = "boxarr_features_auto_add_genre_blacklist" then
    { s with boxarr_features_auto_add_genre_blacklist := v }
  else if name = "boxarr_features_auto_add_rating_filter_enabled" then
    { s with boxarr_features_auto_add_rating_filter_enabled := v }
  else if name = "boxarr_features_auto_add_rating_whitelist" then
    { s with boxarr_features_auto_add_rating_whitelist := v }
  else if name = "boxarr_features_auto_add_ignore_rereleases" then
    { s with boxarr_features_auto_add_ignore_rereleases := v }
  else if name = "boxarr_data_history_retention_days" then
    { s with boxarr_data_history_retention_days := v }
  else if name = "boxarr_data_cache_ttl_seconds" then
    { s with boxarr_data_cache_ttl_seconds := v }
  else if name = "radarr_cache_ttl_seconds" then
    { s with radarr_cache_ttl_seconds := v }
  else if name = "boxarr_data_directory" then { s with boxarr_data_directory := v }
  else if name = "log_level" then { s with log_level := v }
  else if name = "log_format" then { s with log_format := v }
  else s

/-- Guarded generic assignment used all over the merge:
`if hasattr(self, attr): setattr(self, attr, value)`. -/
def setIfHasAttr (s : Settings) (name : String) (v : Yaml) : Settings :=
  if hasAttr name then setAttrY s name v else s

/-!
## Merge engine (`Settings.load_from_yaml`)
-/

/-- The `RootFolderMapping(**mapping)` pydantic construction: the
record must be a mapping with a `genres` list of strings and a string
`root_folder`; `priority` defaults to 0 and must be an integer when
present; extra keys are ignored; violations raise a validation error,
which the merge does not catch. -/
def parseMapping : Yaml → Except Unit RootFolderMapping
  | .map m => do
    let genres ← match m.lookup "genres" with
      | some (.list gs) =>
        gs.mapM (fun g => match g with
          | Yaml.str s => Except.ok s
          | _ => Except.error ())
      | _ => Except.error ()
    let root ← match m.lookup "root_folder" with
      | some (.str s) => Except.ok s
      | _ => Except.error ()
    let prio ← match m.lookup "priority" with
      | some (.int n) => Except.ok n
      | none => Except.ok 0
      | some _ => Except.error ()
    .ok ⟨genres, root, prio⟩
  | _ => .error ()

/-- One key of the `radarr:` section. -/
def processRadarrKey (s : Settings) (kv : String × Yaml) : Except Unit Settings :=
  if kv.1 = "root_folder_config" then
    match kv.2 with
    | .map m => do
      let enabled : Yaml := match m.lookup "enabled" with
        | some e => e
        | none => .bool false
      let mappings ← match m.lookup "mappings" with
        | some (.list ms) => ms.mapM parseMapping
        | _ => Except.ok ([] : List RootFolderMapping)
      .ok { s with radarr_root_folder_config := ⟨enabled, mappings⟩ }
    | _ => .ok (setIfHasAttr s ("radarr_" ++ kv.1) kv.2)
  else if kv.1 = "minimum_availability" then
    .ok (match parseMinimumAvailability kv.2 with
      | some e => { s with radarr_minimum_availability := .str (remapPreDb e) }
      | none => s)
  else .ok (setIfHasAttr s ("radarr_" ++ kv.1) kv.2)

/-- One key of the `boxarr:` section. -/
def processBoxarrKey (s : Settings) (kv : String × Yaml) : Settings :=
  if kv.1 = "scheduler" then
    match kv.2 with
    | .map items =>
      items.foldl (fun s p => setIfHasAttr s ("boxarr_scheduler_" ++ p.1) p.2) s
    | _ => setIfHasAttr s ("boxarr_" ++ kv.1) kv.2
  else if kv.1 = "features" then
    match kv.2 with
    | .map items =>
      items.foldl (fun s p =>
        if p.1 = "auto_add_options" then
          match p.2 with
          | .map opts =>
            opts.foldl
              (fun s q => setIfHasAttr s ("boxarr_features_auto_add_" ++ q.1) q.2) s
          | _ => setIfHasAttr s ("boxarr_features_" ++ p.1) p.2
        else setIfHasAttr s ("boxarr_features_" ++ p.1) p.2) s
    | _ => setIfHasAttr s ("boxarr_" ++ kv.1) kv.2
  else if kv.1 = "ui" then
    match kv.2 with
    | .map items =>
      items.foldl (fun s p =>
        if p.1 = "cards_per_row" then
          match p.2 with
          | .map devices =>
            devices.foldl
              (fun s q =>
                setIfHasAttr s
                  ("boxarr_ui_cards_per_row_" ++ (q.1.replace "4k" "_4k")) q.2) s
          | _ => setIfHasAttr s ("boxarr_ui_" ++ p.1) p.2
        else setIfHasAttr s ("boxarr_ui_" ++ p.1) p.2) s
    | _ => setIfHasAttr s ("boxarr_" ++ kv.1) kv.2
  else if kv.1 = "data" then
    match kv.2 with
    | .map items =>
      items.foldl (fun s p => setIfHasAttr s ("boxarr_data_" ++ p.1) p.2) s
    | _ => setIfHasAttr s ("boxarr_" ++ kv.1) kv.2
  else setIfHasAttr s ("boxarr_" ++ kv.1) kv.2

/-- One top-level section of the document. -/
def processSection (s : Settings) (kv : String × Yaml) : Except Unit Settings :=
  if kv.1 = "version" then .ok s
  else if kv.1 = "radarr" then
    match kv.2 with
    | .map items => items.foldlM processRadarrKey s
    | _ => .ok (setIfHasAttr s kv.1 kv.2)
  else if kv.1 = "boxarr" then
    match kv.2 with
    | .map items => .ok (items.foldl processBoxarrKey s)
    | _ => .ok (setIfHasAttr s kv.1 kv.2)
  else .ok (setIfHasAttr s kv.1 kv.2)

/-- The body of `load_from_yaml` applied to an already-loaded document:
iterate the document's top-level items in order.  A non-mapping
document (`None` from an empty file, a bare scalar, a sequence) makes
`config_data.items()` raise, which the method does not catch. -/
def apply_config_data (s : Settings) (doc : Yaml) : Except Unit Settings :=
  match doc with
  | .map items => items.foldlM processSection s
  | _ => .error ()

/-- Embedding of `Settings.load_from_yaml`: nothing happens when the
path does not exist; otherwise the file is loaded through `load_yaml`
and the document applied. -/
def load_from_yaml (pathQuery : String → Bool) (fs : String → ReadResult)
    (parse : String → ParseOutcome) (s : Settings) (path : String) :
    Except Unit Settings :=
  if pathQuery path then
    (load_yaml fs parse path).bind (fun doc => apply_config_data s doc)
  else .ok s

/-!
## Genre router (`Settings.get_root_folder_for_genres`)
-/

/-- Normalization applied to each genre on both sides of the match:
lower-case, then trim. -/
def normGenre (g : String) : String := pyStrip (pyLower g)

/-- Nonempty intersection of the two normalized genre sets; with sets
built from these lists, `a & b` is truthy exactly when some element is
shared (duplicates cannot matter). -/
def genresIntersect (a b : List String) : Bool :=
  a.any (fun g => b.contains g)

/-- The `for mapping in mappings` loop: first rule whose normalized
genre set meets the movie's wins; otherwise the fallback. -/
def routeScan (normalized : List String) (fallback : String) :
    List RootFolderMapping → String
  | [] => fallback
  | m :: rest =>
    if genresIntersect normalized (m.genres.map normGenre) then m.root_folder
    else routeScan normalized fallback rest

/-- Embedding of `get_root_folder_for_genres`.  The fallback
`default or str(self.radarr_root_folder)` uses Python truthiness:
a `None` or empty-string default selects the root folder's string. -/
def get_root_folder_for_genres (s : Settings) (genres : List String)
    (default : Option String) : String :=
  if !(pyTruthy s.radarr_root_folder_config.enabled) then
    pyOrElse default (pyStr s.radarr_root_folder)
  else
    routeScan (genres.map normGenre) (pyOrElse default (pyStr s.radarr_root_folder))
      s.radarr_root_folder_config.mappings

/-!
## Construction-time validators
-/

/-- The `validate_auto_tag_text` pre-validator: `None` and blank input
fall back to `"boxarr"`; embedded whitespace and length over 20 (after
stripping) are rejected. -/
def validate_auto_tag_text (v : Option String) : Except String String :=
  match v with
  | none => .ok "boxarr"
  | some t =>
    let s := pyStrip t
    if s = "" then .ok "boxarr"
    else if s.data.any isPySpace then
      .error "Auto tag must be a single word without spaces"
    else if s.length > 20 then
      .error "Auto tag must be at most 20 characters"
    else .ok s

/-- The `validate_api_port_different` validator: compares against the
previously validated web port. -/
def validate_api_port_different (v : Int) (webPort : Int) : Except String Int :=
  if v = webPort then .error "API port must be different from web port"
  else .ok v

/-- Constructing `Settings` with explicit web port, API port and
auto-tag text (everything else at its default): the `ge`/`le` bounds on
the ports and the two custom validators run; pydantic raises a
validation error when any field fails (we surface the first failure).
Validation is pure — no directory is created or touched
(`ensure_data_directory_exists` deliberately only returns its input). -/
def constructSettings (env : String → Option String) (port apiPort : Int)
    (tagInput : Option String) : Except String Settings :=
  if ¬(1 ≤ port ∧ port ≤ 65535) then .error "web port out of range"
  else if ¬(1 ≤ apiPort ∧ apiPort ≤ 65535) then .error "API port out of range"
  else do
    let apiPortV ← validate_api_port_different apiPort port
    let tag ← validate_auto_tag_text tagInput
    .ok { defaultSettings env "/config" with
          boxarr_port := .int port
          boxarr_api_port := .int apiPortV
          boxarr_features_auto_tag_text := .str tag }

/-!
## Resolution orchestrator (`config.load_settings`)
-/

/-- The configuration directory:
`os.getenv("BOXARR_DATA_DIRECTORY", "config")`. -/
def dataDir (env : String → Option String) : String :=
  (env "BOXARR_DATA_DIRECTORY").getD "config"

/-- `Path(dir) / name` on the string level. -/
def joinPath (dir name : String) : String :=
  if dir = "" then name else dir ++ "/" ++ name

/-- The fixed candidate list probed by `load_settings`, in order. -/
def configPaths (dd : String) : List String :=
  [joinPath dd "local.yaml",
   joinPath dd "config.yaml",
   "config/local.yaml",
   "config/default.yaml",
   "/config/local.yaml",
   "/config/config.yaml"]

/-- Embedding of `load_settings`: build defaults with the resolved data
directory, then walk the candidates and merge only the first whose
`Path.exists()` probe succeeds. -/
def load_settings (env : String → Option String) (pathQuery : String → Bool)
    (fs : String → ReadResult) (parse : String → ParseOutcome) :
    Except Unit Settings :=
  let dd := dataDir env
  let s0 := defaultSettings env dd
  match (configPaths dd).find? pathQuery with
  | none => .ok s0
  | some p => load_from_yaml pathQuery fs parse s0 p

/-!
## Helper lemmas about the interpolator
-/

/-- A character admissible inside a placeholder's content. -/
def goodChar (c : Char) : Prop := c ≠ '}' ∧ c ≠ '{' ∧ c ≠ '^'

instance (c : Char) : Decidable (goodChar c) := by
  unfold goodChar
  infer_instance

theorem interpolate_nil (env : String → Option String) :
    interpolate env [] = [] := by
  simp [interpolate]

theorem interpolate_cons_ne (env : String → Option String) (c : Char)
    (rest : List Char) (hc : c ≠ '$') :
    interpolate env (c :: rest) = c :: interpolate env rest := by
  rw [interpolate.eq_def]
  split
  · rename_i heq
    exact absurd heq (by simp)
  · rename_i r heq
    injection heq with h1 h2
    exact absurd h1 hc
  · rename_i a b c2 d heq
    injection heq with h1 h2
    rw [h1, h2]

theorem grabContent_append (content rest : List Char)
    (h : ∀ c ∈ content, goodChar c) :
    grabContent (content ++ '}' :: rest) = some (content, rest) := by
  induction content with
  | nil => simp [grabContent]
  | cons x xs ih =>
    have hx := h x (by simp)
    have hxs : ∀ c ∈ xs, goodChar c := fun c hc => h c (by simp [hc])
    simp only [List.cons_append, grabContent]
    rw [if_neg hx.1, if_neg (by
      rcases hx with ⟨h1, h2, h3⟩
      intro hor
      rcases hor with h | h
      · exact h2 h
      · exact h3 h)]
    simp only [List.append_eq]
    rw [ih hxs]

theorem interpolate_placeholder (env : String → Option String)
    (content rest : List Char) (hne : content ≠ [])
    (hgood : ∀ c ∈ content, goodChar c) :
    interpolate env ('$' :: '{' :: (content ++ '}' :: rest)) =
      subst env content ++ interpolate env rest := by
  have hg := grabContent_append content rest hgood
  cases content with
  | nil => exact absurd rfl hne
  | cons x xs =>
    rw [interpolate.eq_def]
    split
    · rename_i heq
      exact absurd heq (by simp)
    · rename_i r heq
      have hr : r = x :: xs ++ '}' :: rest := by
        injection heq with h1 h2
        injection h2 with h3 h4
        exact h4.symm
      subst hr
      split
      · rename_i c2 content2 r2 hmatch
        rw [hg] at hmatch
        injection hmatch with hp
        injection hp with hl hr2
        rw [← hl, ← hr2]
      · rename_i hval hno
        exact (hno x xs rest hg).elim
    · rename_i a b c d heq
      injection heq with h1 h2
      exact (d (x :: xs ++ '}' :: rest) h1.symm h2.symm).elim

theorem takeWhile_all {p : Char → Bool} {l : List Char}
    (h : ∀ c ∈ l, p c = true) : l.takeWhile p = l := by
  induction l with
  | nil => rfl
  | cons x xs ih =>
    have hx := h x (by simp)
    have hxs : ∀ c ∈ xs, p c = true := fun c hc => h c (by simp [hc])
    simp [List.takeWhile_cons, hx, ih hxs]

theorem dropWhile_all {p : Char → Bool} {l : List Char}
    (h : ∀ c ∈ l, p c = true) : l.dropWhile p = [] := by
  induction l with
  | nil => rfl
  | cons x xs ih =>
    have hx := h x (by simp)
    have hxs : ∀ c ∈ xs, p c = true := fun c hc => h c (by simp [hc])
    simp [List.dropWhile_cons, hx, ih hxs]

theorem takeWhile_append_stop {p : Char → Bool} {a : List Char}
    (h : ∀ c ∈ a, p c = true) (x : Char) (hx : p x = false) (b : List Char) :
    (a ++ x :: b).takeWhile p = a := by
  induction a with
  | nil => simp [List.takeWhile_cons, hx]
  | cons y ys ih =>
    have hy := h y (by simp)
    have hys : ∀ c ∈ ys, p c = true := fun c hc => h c (by simp [hc])
    simp [List.takeWhile_cons, hy, ih hys]

theorem dropWhile_append_stop {p : Char → Bool} {a : List Char}
    (h : ∀ c ∈ a, p c = true) (x : Char) (hx : p x = false) (b : List Char) :
    (a ++ x :: b).dropWhile p = x :: b := by
  induction a with
  | nil => simp [List.dropWhile_cons, hx]
  | cons y ys ih =>
    have hy := h y (by simp)
    have hys : ∀ c ∈ ys, p c = true := fun c hc => h c (by simp [hc])
    simp [List.dropWhile_cons, hy, ih hys]

theorem subst_no_colon (env : String → Option String) (content : List Char)
    (h : ∀ c ∈ content, c ≠ ':') :
    subst env content = ((env ⟨content⟩).getD "").data := by
  unfold subst
  rw [takeWhile_all (p := fun c => c ≠ ':') (by intro c hc; simpa using h c hc)]
  rw [dropWhile_all (p := fun c => c ≠ ':') (by intro c hc; simpa using h c hc)]

theorem subst_append_colon (env : String → Option String) (name tail : List Char)
    (hn : ∀ c ∈ name, c ≠ ':') :
    subst env (name ++ ':' :: tail) =
      ((env ⟨name⟩).getD ⟨tail.takeWhile (fun c => c ≠ ':')⟩).data := by
  unfold subst
  rw [takeWhile_append_stop (p := fun c => c ≠ ':')
    (by intro c hc; simpa using hn c hc) ':' (by simp) tail]
  rw [dropWhile_append_stop (p := fun c => c ≠ ':')
    (by intro c hc; simpa using hn c hc) ':' (by simp) tail]

theorem data_of_ne_empty {name : String} (hn : name ≠ "") : name.data ≠ [] := by
  intro h0
  exact hn (String.ext (by rw [h0]))

/-- A lone `$\x7bNAME\x7d` placeholder resolves to the bound value, or
`""` when unbound. -/
theorem interp_no_default (env : String → Option String) (name : String)
    (hn : name ≠ "") (hgn : ∀ c ∈ name.data, goodChar c ∧ c ≠ ':') :
    interpolateStr env ("$\x7b" ++ name ++ "\x7d") = (env name).getD "" := by
  unfold interpolateStr
  rw [show ("$\x7b" ++ name ++ "\x7d").data =
      '$' :: '{' :: (name.data ++ '}' :: []) by
    rw [String.data_append, String.data_append]
    rw [show "$\x7b".data = ['$', '{'] from rfl, show "\x7d".data = ['}'] from rfl]
    simp]
  rw [interpolate_placeholder env name.data [] (data_of_ne_empty hn)
    (fun c hc => (hgn c hc).1)]
  rw [subst_no_colon env name.data (fun c hc => (hgn c hc).2)]
  rw [interpolate_nil, List.append_nil]

/-- A lone `$\x7bNAME:DEFAULT\x7d` placeholder (colon-free default)
resolves to the bound value, or to the default only when `NAME` is
entirely unbound. -/
theorem interp_with_default (env : String → Option String) (name dflt : String)
    (hn : name ≠ "") (hgn : ∀ c ∈ name.data, goodChar c ∧ c ≠ ':')
    (hgd : ∀ c ∈ dflt.data, goodChar c ∧ c ≠ ':') :
    interpolateStr env ("$\x7b" ++ name ++ ":" ++ dflt ++ "\x7d") =
      (env name).getD dflt := by
  unfold interpolateStr
  rw [show ("$\x7b" ++ name ++ ":" ++ dflt ++ "\x7d").data =
      '$' :: '{' :: ((name.data ++ ':' :: dflt.data) ++ '}' :: []) by
    rw [String.data_append, String.data_append, String.data_append,
      String.data_append]
    rw [show "$\x7b".data = ['$', '{'] from rfl, show "\x7d".data = ['}'] from rfl,
      show ":".data = [':'] from rfl]
    simp]
  rw [interpolate_placeholder env (name.data ++ ':' :: dflt.data) []
    (by simp) (by
      intro c hc
      rw [List.mem_append] at hc
      rcases hc with hc | hc
      · exact (hgn c hc).1
      · rcases List.mem_cons.mp hc with hc | hc
        · rw [hc]; exact ⟨by decide, by decide, by decide⟩
        · exact (hgd c hc).1)]
  rw [subst_append_colon env name.data dflt.data (fun c hc => (hgn c hc).2)]
  rw [takeWhile_all (p := fun c => c ≠ ':')
    (by intro c hc; simpa using (hgd c hc).2)]
  rw [interpolate_nil, List.append_nil]

/-- A `$\x7bNAME:DEFAULT\x7d` placeholder whose default text contains a
further colon: only the segment before that colon is the default. -/
theorem interp_default_extra (env : String → Option String)
    (name d1 extra : String) (hn : name ≠ "")
    (hgn : ∀ c ∈ name.data, goodChar c ∧ c ≠ ':')
    (hgd : ∀ c ∈ d1.data, goodChar c ∧ c ≠ ':')
    (hge : ∀ c ∈ extra.data, goodChar c) :
    interpolateStr env ("$\x7b" ++ name ++ ":" ++ d1 ++ ":" ++ extra ++ "\x7d") =
      (env name).getD d1 := by
  unfold interpolateStr
  rw [show ("$\x7b" ++ name ++ ":" ++ d1 ++ ":" ++ extra ++ "\x7d").data =
      '$' :: '{' :: ((name.data ++ ':' :: (d1.data ++ ':' :: extra.data)) ++ '}' :: []) by
    rw [String.data_append, String.data_append, String.data_append,
      String.data_append, String.data_append, String.data_append]
    rw [show "$\x7b".data = ['$', '{'] from rfl, show "\x7d".data = ['}'] from rfl,
      show ":".data = [':'] from rfl]
    simp]
  rw [interpolate_placeholder env (name.data ++ ':' :: (d1.data ++ ':' :: extra.data)) []
    (by simp) (by
      intro c hc
      rw [List.mem_append] at hc
      rcases hc with hc | hc
      · exact (hgn c hc).1
      · rcases List.mem_cons.mp hc with hc | hc
        · rw [hc]; exact ⟨by decide, by decide, by decide⟩
        · rw [List.mem_append] at hc
          rcases hc with hc | hc
          · exact (hgd c hc).1
          · rcases List.mem_cons.mp hc with hc | hc
            · rw [hc]; exact ⟨by decide, by decide, by decide⟩
            · exact hge c hc)]
  rw [subst_append_colon env name.data (d1.data ++ ':' :: extra.data)
    (fun c hc => (hgn c hc).2)]
  rw [takeWhile_append_stop (p := fun c => c ≠ ':')
    (by intro c hc; simpa using (hgd c hc).2) ':' (by simp) extra.data]
  rw [interpolate_nil, List.append_nil]

/-!
## Claims C3, C4, C5
-/

/-- C3 (amended): the interpolator replaces each `$\x7bNAME\x7d` /
`$\x7bNAME:DEFAULT\x7d` occurrence independently by the environment
value bound to NAME; the DEFAULT is used only when NAME is unset — a
variable bound to the empty string yields the empty string, not the
default (`os.environ.get` only falls back on an absent key); with no
default and NAME unset the result is empty.  The concrete spec examples
hold: `$\x7bFOO:bar\x7d` gives `bar` with FOO unset and `x` with FOO=x,
and `$\x7bA\x7d-$\x7bB:def\x7d` resolves each placeholder
independently. -/
theorem claim3_interpolator_contract (env : String → Option String)
    (name dflt : String) (hn : name ≠ "")
    (hgn : ∀ c ∈ name.data, goodChar c ∧ c ≠ ':')
    (hgd : ∀ c ∈ dflt.data, goodChar c ∧ c ≠ ':') :
    interpolateStr env ("$\x7b" ++ name ++ "\x7d") = (env name).getD ""
    ∧ interpolateStr env ("$\x7b" ++ name ++ ":" ++ dflt ++ "\x7d") =
        (env name).getD dflt
    ∧ interpolateStr env "$\x7bA\x7d-$\x7bB:def\x7d" =
        ((env "A").getD "") ++ "-" ++ ((env "B").getD "def")
    ∧ interpolateStr (fun _ => none) "$\x7bFOO:bar\x7d" = "bar"
    ∧ interpolateStr (fun n => if n = "FOO" then some "x" else none)
        "$\x7bFOO:bar\x7d" = "x" := by
  refine ⟨interp_no_default env name hn hgn,
    interp_with_default env name dflt hn hgn hgd, ?_, ?_, ?_⟩
  · unfold interpolateStr
    rw [show ("$\x7bA\x7d-$\x7bB:def\x7d").data =
        '$' :: '{' :: (['A'] ++ '}' ::
          ('-' :: '$' :: '{' :: (['B', ':', 'd', 'e', 'f'] ++ '}' :: []))) from rfl]
    rw [interpolate_placeholder env ['A'] _ (by decide) (by decide)]
    rw [interpolate_cons_ne env '-' _ (by decide)]
    rw [interpolate_placeholder env ['B', ':', 'd', 'e', 'f'] [] (by decide)
      (by decide)]
    rw [interpolate_nil, List.append_nil]
    rw [subst_no_colon env ['A'] (by decide)]
    rw [show (['B', ':', 'd', 'e', 'f'] : List Char) =
        ['B'] ++ ':' :: ['d', 'e', 'f'] from rfl]
    rw [subst_append_colon env ['B'] ['d', 'e', 'f'] (by decide)]
    rw [show (['d', 'e', 'f'].takeWhile (fun c => c ≠ ':')) =
        ['d', 'e', 'f'] from by decide]
    rw [show (⟨['A']⟩ : String) = "A" from rfl,
      show (⟨['B']⟩ : String) = "B" from rfl,
      show (⟨['d', 'e', 'f']⟩ : String) = "def" from rfl]
    apply String.ext
    rw [String.data_append, String.data_append]
    simp
  · have h := interp_with_default (fun _ => none) "FOO" "bar" (by decide)
      (by decide) (by decide)
    rw [show ("$\x7bFOO:bar\x7d" : String) =
        "$\x7b" ++ "FOO" ++ ":" ++ "bar" ++ "\x7d" from rfl]
    exact h
  · have h := interp_with_default (fun n => if n = "FOO" then some "x" else none)
      "FOO" "bar" (by decide) (by decide) (by decide)
    rw [show ("$\x7bFOO:bar\x7d" : String) =
        "$\x7b" ++ "FOO" ++ ":" ++ "bar" ++ "\x7d" from rfl]
    exact h

/-- Witness for C3 at concrete inputs. -/
theorem claim3_witness :
    interpolateStr (fun _ => none) ("$\x7b" ++ "PATH" ++ "\x7d") = ""
    ∧ interpolateStr (fun _ => none) ("$\x7b" ++ "PATH" ++ ":" ++ "dflt" ++ "\x7d")
        = "dflt" := by
  have h := claim3_interpolator_contract (fun _ => none) "PATH" "dflt"
    (by decide) (by decide) (by decide)
  exact ⟨h.1, h.2.1⟩

/-- C3 counterexample: with `FOO` bound to the empty string, the claim
says `$\x7bFOO:bar\x7d` resolves to the default `bar`; the code
resolves it to the bound empty string. -/
theorem claim3_counterexample :
    interpolateStr (fun n => if n = "FOO" then some "" else none)
      "$\x7bFOO:bar\x7d" = ""
    ∧ ("" : String) ≠ "bar" := by
  constructor
  · have h := interp_with_default (fun n => if n = "FOO" then some "" else none)
      "FOO" "bar" (by decide) (by decide) (by decide)
    rw [show ("$\x7bFOO:bar\x7d" : String) =
        "$\x7b" ++ "FOO" ++ ":" ++ "bar" ++ "\x7d" from rfl]
    exact h
  · decide

/-- C4 (confirmed): when the default text itself contains a colon, only
the segment between the colon after the name and the next colon is used
as the default; the remaining segments are dropped.  In particular
`$\x7bX:a:b:c\x7d` with `X` unset yields `a`. -/
theorem claim4_colon_in_default (env : String → Option String)
    (name d1 extra : String) (hn : name ≠ "")
    (hgn : ∀ c ∈ name.data, goodChar c ∧ c ≠ ':')
    (hgd : ∀ c ∈ d1.data, goodChar c ∧ c ≠ ':')
    (hge : ∀ c ∈ extra.data, goodChar c) :
    interpolateStr env ("$\x7b" ++ name ++ ":" ++ d1 ++ ":" ++ extra ++ "\x7d") =
      (env name).getD d1
    ∧ interpolateStr (fun _ => none) "$\x7bX:a:b:c\x7d" = "a" := by
  constructor
  · exact interp_default_extra env name d1 extra hn hgn hgd hge
  · have h := interp_default_extra (fun _ => none) "X" "a" "b:c" (by decide)
      (by decide) (by decide) (by decide)
    rw [show ("$\x7bX:a:b:c\x7d" : String) =
        "$\x7b" ++ "X" ++ ":" ++ "a" ++ ":" ++ "b:c" ++ "\x7d" from rfl]
    exact h

/-- Witness for C4 at concrete inputs. -/
theorem claim4_witness :
    interpolateStr (fun _ => none)
      ("$\x7b" ++ "VAR" ++ ":" ++ "a" ++ ":" ++ "b" ++ "\x7d") = "a" := by
  exact (claim4_colon_in_default (fun _ => none) "VAR" "a" "b" (by decide)
    (by decide) (by decide) (by decide)).1

/-- C5 (amended): `load_yaml` returns an empty mapping, without
raising, when the file is missing, unreadable due to permissions, or
fails with a YAML `ParserError`; but a parse failure that is not a
`ParserError` (for example a `ScannerError` from lexically invalid
input, or a `UnicodeDecodeError` while reading) is not caught and
propagates to the caller. -/
theorem claim5_loader_robustness (fs : String → ReadResult)
    (parse : String → ParseOutcome) (p : String) :
    (fs p = .notFound → load_yaml fs parse p = .ok (.map []))
    ∧ (fs p = .permissionDenied → load_yaml fs parse p = .ok (.map []))
    ∧ (∀ c, fs p = .content c → parse c = .parserError →
        load_yaml fs parse p = .ok (.map []))
    ∧ (∀ c d, fs p = .content c → parse c = .ok d →
        load_yaml fs parse p = .ok d)
    ∧ (∀ c, fs p = .content c → parse c = .otherError →
        load_yaml fs parse p = .error ()) := by
  refine ⟨?_, ?_, ?_, ?_, ?_⟩
  · intro h; simp [load_yaml, h]
  · intro h; simp [load_yaml, h]
  · intro c h hp; simp [load_yaml, h, hp]
  · intro c d h hp; simp [load_yaml, h, hp]
  · intro c h hp; simp [load_yaml, h, hp]

/-- Witness for C5 at concrete inputs. -/
theorem claim5_witness :
    load_yaml (fun _ => ReadResult.notFound) (fun _ => ParseOutcome.parserError)
      "config/local.yaml" = .ok (.map []) :=
  (claim5_loader_robustness (fun _ => ReadResult.notFound)
    (fun _ => ParseOutcome.parserError) "config/local.yaml").1 rfl

/-- C5 counterexample: a file whose text makes `yaml.safe_load` raise an
exception that is not a `ParserError` (such as the `ScannerError`
raised by a tab in indentation) escapes `load_yaml` instead of
yielding an empty mapping. -/
theorem claim5_counterexample :
    load_yaml (fun _ => ReadResult.content "a:\n\tb: 1")
      (fun _ => ParseOutcome.otherError) "config/local.yaml" = .error () := rfl

/-!
## Claims C1 and C9 (genre router)
-/

/-- A copy of the mapping list with every stored priority rewritten. -/
def withPriorities (f : RootFolderMapping → Int) (ms : List RootFolderMapping) :
    List RootFolderMapping :=
  ms.map (fun m => { m with priority := f m })

/-- A copy of a settings value with every mapping's priority rewritten. -/
def setPriorities (s : Settings) (f : RootFolderMapping → Int) : Settings :=
  { s with radarr_root_folder_config :=
      ⟨s.radarr_root_folder_config.enabled,
       withPriorities f s.radarr_root_folder_config.mappings⟩ }

/-- The spec's locked-in routing scenario. -/
def exampleRoutingSettings : Settings :=
  { defaultSettings (fun _ => none) "config" with
    radarr_root_folder_config :=
      ⟨.bool true,
       [⟨["horror"], "/h", 1⟩, ⟨["action"], "/a", 5⟩]⟩ }

theorem routeScan_eq_find (normalized : List String) (fallback : String)
    (ms : List RootFolderMapping) :
    routeScan normalized fallback ms =
      match ms.find?
          (fun m => genresIntersect normalized (m.genres.map normGenre)) with
      | some m => m.root_folder
      | none => fallback := by
  induction ms with
  | nil => rfl
  | cons m rest ih =>
    by_cases h : genresIntersect normalized (m.genres.map normGenre)
    · simp [routeScan, List.find?_cons, h]
    · simp only [Bool.not_eq_true] at h
      simp [routeScan, List.find?_cons, h, ih]

theorem routeScan_priorities (normalized : List String) (fallback : String)
    (f : RootFolderMapping → Int) (ms : List RootFolderMapping) :
    routeScan normalized fallback (withPriorities f ms) =
      routeScan normalized fallback ms := by
  induction ms with
  | nil => rfl
  | cons m rest ih =>
    by_cases h : genresIntersect normalized (m.genres.map normGenre)
    · simp [withPriorities, routeScan, h]
    · simp only [Bool.not_eq_true] at h
      simp only [withPriorities, List.map_cons, routeScan, h] at ih ⊢
      simp [ih, withPriorities]

theorem routeScan_fallback_or_mem (normalized : List String) (fallback : String)
    (ms : List RootFolderMapping) :
    routeScan normalized fallback ms = fallback
    ∨ ∃ m ∈ ms, routeScan normalized fallback ms = m.root_folder := by
  induction ms with
  | nil => exact Or.inl rfl
  | cons m rest ih =>
    by_cases h : genresIntersect normalized (m.genres.map normGenre)
    · refine Or.inr ⟨m, by simp, ?_⟩
      simp [routeScan, h]
    · simp only [Bool.not_eq_true] at h
      rcases ih with ih | ⟨m2, hm2, ih⟩
      · exact Or.inl (by simp [routeScan, h, ih])
      · exact Or.inr ⟨m2, by simp [hm2], by simp [routeScan, h, ih]⟩

theorem routeScan_nil_normalized (fallback : String)
    (ms : List RootFolderMapping) : routeScan [] fallback ms = fallback := by
  induction ms with
  | nil => rfl
  | cons m rest ih => simp [routeScan, genresIntersect, ih]

/-- C1 (amended): with routing enabled, the router normalizes the input
genres (lower-case then trim), scans the stored mapping list in order,
and returns the destination folder of the first mapping whose
normalized genre set meets the input's; the stored priority field never
affects the outcome; when no mapping matches, or routing is disabled,
the fallback is `default or str(radarr_root_folder)` under Python
truthiness — the given default when it is non-empty, the root folder's
string when the default is absent or empty.  The spec's locked-in
scenario resolves to `/h`. -/
theorem claim1_genre_routing (s : Settings) (genres : List String)
    (d : Option String) (f : RootFolderMapping → Int) :
    (get_root_folder_for_genres s genres d =
      if pyTruthy s.radarr_root_folder_config.enabled then
        match s.radarr_root_folder_config.mappings.find?
            (fun m =>
              genresIntersect (genres.map normGenre) (m.genres.map normGenre)) with
        | some m => m.root_folder
        | none => pyOrElse d (pyStr s.radarr_root_folder)
      else pyOrElse d (pyStr s.radarr_root_folder))
    ∧ get_root_folder_for_genres (setPriorities s f) genres d =
        get_root_folder_for_genres s genres d
    ∧ get_root_folder_for_genres exampleRoutingSettings ["Action", "Horror"] none
        = "/h" := by
  refine ⟨?_, ?_, by decide⟩
  · by_cases h : pyTruthy s.radarr_root_folder_config.enabled
    · simp [get_root_folder_for_genres, h, routeScan_eq_find]
    · simp only [Bool.not_eq_true] at h
      simp [get_root_folder_for_genres, h]
  · by_cases h : pyTruthy s.radarr_root_folder_config.enabled
    · simp [get_root_folder_for_genres, setPriorities, h, routeScan_priorities]
    · simp only [Bool.not_eq_true] at h
      simp [get_root_folder_for_genres, setPriorities, h]

/-- C1 counterexample: with routing enabled, no matching mapping, and
the explicitly given default `""`, the claim says the result is the
given default `""`; the code's `default or str(root)` treats the empty
default as falsy and returns `"/movies"`. -/
theorem claim1_counterexample :
    get_root_folder_for_genres
      { defaultSettings (fun _ => none) "config" with
        radarr_root_folder_config := ⟨.bool true, []⟩ }
      ["Action"] (some "") = "/movies"
    ∧ ("/movies" : String) ≠ "" := by
  exact ⟨rfl, by decide⟩

/-- C9 (confirmed): the router is a total pure function of the settings
value — the embedding returns only a string and cannot modify its
argument, mirroring the source method, which only reads attributes —
and on the empty genre list it always falls back to
`default or str(radarr_root_folder)` (so the result is the given
default or the root folder's string), even when routing is enabled and
mappings are present; in general the result is either that fallback or
the destination folder of one of the stored mappings. -/
theorem claim9_router_safety (s : Settings) (genres : List String)
    (d : Option String) :
    get_root_folder_for_genres s [] d = pyOrElse d (pyStr s.radarr_root_folder)
    ∧ ((∃ x, d = some x ∧ get_root_folder_for_genres s [] d = x)
        ∨ get_root_folder_for_genres s [] d = pyStr s.radarr_root_folder)
    ∧ (get_root_folder_for_genres s genres d =
          pyOrElse d (pyStr s.radarr_root_folder)
        ∨ ∃ m ∈ s.radarr_root_folder_config.mappings,
            get_root_folder_for_genres s genres d = m.root_folder) := by
  have hempty : get_root_folder_for_genres s [] d =
      pyOrElse d (pyStr s.radarr_root_folder) := by
    by_cases h : pyTruthy s.radarr_root_folder_config.enabled
    · simp [get_root_folder_for_genres, h, routeScan_nil_normalized]
    · simp only [Bool.not_eq_true] at h
      simp [get_root_folder_for_genres, h]
  refine ⟨hempty, ?_, ?_⟩
  · cases d with
    | none => exact Or.inr (by simpa [pyOrElse] using hempty)
    | some x =>
      by_cases hx : x = ""
      · exact Or.inr (by simpa [pyOrElse, hx] using hempty)
      · exact Or.inl ⟨x, rfl, by simpa [pyOrElse, hx] using hempty⟩
  · by_cases h : pyTruthy s.radarr_root_folder_config.enabled
    · have := routeScan_fallback_or_mem (genres.map normGenre)
        (pyOrElse d (pyStr s.radarr_root_folder))
        s.radarr_root_folder_config.mappings
      rcases this with hf | ⟨m, hm, hf⟩
      · exact Or.inl (by simp [get_root_folder_for_genres, h, hf])
      · exact Or.inr ⟨m, hm, by simp [get_root_folder_for_genres, h, hf]⟩
    · simp only [Bool.not_eq_true] at h
      exact Or.inl (by simp [get_root_folder_for_genres, h])

/-!
## Claims C8 and C10 (construction-time validators)
-/

theorem pyStrip_all_space (t : String) (h : ∀ c ∈ t.data, isPySpace c = true) :
    pyStrip t = "" := by
  unfold pyStrip stripChars
  rw [dropWhile_all h]
  rfl

/-- C8 (confirmed): constructing `Settings` fails whenever the API port
equals the web port (whether or not the shared value is in range); the
auto-tag validator rejects any text that still contains whitespace
after stripping and any text longer than 20 characters after stripping;
a whitespace-free text of exactly 20 characters passes, and a full
construction with the default ports and such a tag succeeds.  The
validators are pure functions of their inputs: no filesystem effect is
modelled because `ensure_data_directory_exists` deliberately returns
its input without touching the disk. -/
theorem claim8_construction_validation (env : String → Option String)
    (port apiPort : Int) (t : String) :
    (∃ msg, constructSettings env port port (some t) = .error msg)
    ∧ (pyStrip t ≠ "" → (pyStrip t).data.any isPySpace = true →
        ∃ msg, validate_auto_tag_text (some t) = .error msg)
    ∧ (20 < (pyStrip t).length →
        ∃ msg, validate_auto_tag_text (some t) = .error msg)
    ∧ ((pyStrip t).length = 20 → (pyStrip t).data.any isPySpace = false →
        validate_auto_tag_text (some t) = .ok (pyStrip t))
    ∧ (∃ s20,
        constructSettings env 8888 8889 (some "aaaaaaaaaaaaaaaaaaaa") = .ok s20) := by
  refine ⟨?_, ?_, ?_, ?_, ⟨_, rfl⟩⟩
  · by_cases h1 : 1 ≤ port ∧ port ≤ 65535
    · refine ⟨"API port must be different from web port", ?_⟩
      simp [constructSettings, h1, validate_api_port_different]
      rfl
    · exact ⟨"web port out of range", by simp [constructSettings, h1]⟩
  · intro h0 hsp
    exact ⟨"Auto tag must be a single word without spaces",
      by simp [validate_auto_tag_text, h0, hsp]⟩
  · intro hlen
    have h0 : pyStrip t ≠ "" := by
      intro h0
      rw [h0] at hlen
      simp [String.length] at hlen
    by_cases hsp : (pyStrip t).data.any isPySpace
    · exact ⟨"Auto tag must be a single word without spaces",
        by simp [validate_auto_tag_text, h0, hsp]⟩
    · simp only [Bool.not_eq_true] at hsp
      exact ⟨"Auto tag must be at most 20 characters",
        by simp [validate_auto_tag_text, h0, hsp, hlen]⟩
  · intro hlen hsp
    have h0 : pyStrip t ≠ "" := by
      intro h0
      rw [h0] at hlen
      simp [String.length] at hlen
    have hle : ¬((pyStrip t).length > 20) := by omega
    simp [validate_auto_tag_text, h0, hsp, hle]

/-- Witness for C8 at concrete inputs. -/
theorem claim8_witness :
    (∃ msg, constructSettings (fun _ => none) 5 5 (some "boxarr") = .error msg)
    ∧ (∃ msg, validate_auto_tag_text (some "my tag") = .error msg)
    ∧ (∃ msg, validate_auto_tag_text (some "aaaaaaaaaaaaaaaaaaaaa") = .error msg)
    ∧ validate_auto_tag_text (some "aaaaaaaaaaaaaaaaaaaa") =
        .ok (pyStrip "aaaaaaaaaaaaaaaaaaaa") := by
  have h1 := claim8_construction_validation (fun _ => none) 5 5 "boxarr"
  have h2 := claim8_construction_validation (fun _ => none) 5 5 "my tag"
  have h3 := claim8_construction_validation (fun _ => none) 5 5 "aaaaaaaaaaaaaaaaaaaaa"
  have h4 := claim8_construction_validation (fun _ => none) 5 5 "aaaaaaaaaaaaaaaaaaaa"
  exact ⟨h1.1, h2.2.1 (by decide) (by decide), h3.2.2.1 (by decide),
    h4.2.2.2.1 (by decide) (by decide)⟩

/-- C10 (confirmed): an absent, empty, or whitespace-only auto-tag
input does not raise — it is silently replaced by the default
`"boxarr"` — and every accepted result is non-empty. -/
theorem claim10_auto_tag_fallback :
    validate_auto_tag_text none = .ok "boxarr"
    ∧ validate_auto_tag_text (some "") = .ok "boxarr"
    ∧ (∀ t, (∀ c ∈ t.data, isPySpace c = true) →
        validate_auto_tag_text (some t) = .ok "boxarr")
    ∧ (∀ t r, validate_auto_tag_text (some t) = .ok r → r ≠ "") := by
  refine ⟨rfl, rfl, ?_, ?_⟩
  · intro t h
    simp [validate_auto_tag_text, pyStrip_all_space t h]
  · intro t r h
    unfold validate_auto_tag_text at h
    by_cases h0 : pyStrip t = ""
    · simp [h0] at h
      rw [← h]
      decide
    · by_cases hsp : (pyStrip t).data.any isPySpace
      · simp [h0, hsp] at h
      · simp only [Bool.not_eq_true] at hsp
        by_cases hlen : (pyStrip t).length > 20
        · simp [h0, hsp, hlen] at h
        · simp [h0, hsp, hlen] at h
          rw [← h]
          exact h0

/-- Witness for C10 at concrete inputs. -/
theorem claim10_witness :
    validate_auto_tag_text (some "   ") = .ok "boxarr"
    ∧ ("boxarr" : String) ≠ "" := by
  have h := claim10_auto_tag_fallback
  exact ⟨h.2.2.1 "   " (by decide),
    h.2.2.2 "   " "boxarr" (h.2.2.1 "   " (by decide))⟩

/-!
## Claims C6 and C7 (merge engine)
-/

/-- A document setting the deprecated theme alias through the
`boxarr.ui.theme` path. -/
def purpleThemeDoc : Yaml :=
  .map [("boxarr", .map [("ui", .map [("theme", .str "purple")])])]

/-- C6: at the constructor/environment input path the pre-validator
rewrites the deprecated aliases to `light`, but the YAML merge path
assigns the raw value with `setattr`, and with `validate_assignment`
not enabled pydantic runs no validator on assignment — the merged field
holds the raw string `purple`, not `light`. -/
theorem claim6_theme_migration_gap :
    (∃ s2, apply_config_data (defaultSettings (fun _ => none) "config")
        purpleThemeDoc = .ok s2
      ∧ s2.boxarr_ui_theme = Yaml.str "purple"
      ∧ s2.boxarr_ui_theme ≠ Yaml.str "light")
    ∧ themeAtConstruction "purple" = .ok "light"
    ∧ themeAtConstruction "blue" = .ok "light" := by
  refine ⟨⟨_, rfl, rfl, ?_⟩, rfl, rfl⟩
  intro hcon
  injection hcon with hs
  exact absurd hs (by decide)

/-- C7 (confirmed): merging a `radarr.minimum_availability` value never
raises; a value that parses as the enum is stored (with the deprecated
`preDb` remapped to `announced`) and every other field is untouched; a
value that does not parse leaves the settings entirely unchanged. -/
theorem claim7_minimum_availability_merge (s : Settings) (v : Yaml) :
    apply_config_data s (.map [("radarr", .map [("minimum_availability", v)])]) =
      .ok (match parseMinimumAvailability v with
        | some e => { s with radarr_minimum_availability := .str (remapPreDb e) }
        | none => s)
    ∧ remapPreDb "preDb" = "announced"
    ∧ remapPreDb "released" = "released"
    ∧ parseMinimumAvailability (.str "inCinemas") = some "inCinemas"
    ∧ parseMinimumAvailability (.str "banana") = none
    ∧ parseMinimumAvailability (.int 3) = none := by
  exact ⟨rfl, rfl, rfl, rfl, rfl, rfl⟩

/-!
## Claim C2 (resolution orchestrator)
-/

theorem find?_first {α : Type} (p : α → Bool) :
    ∀ (l : List α) (a : α), l.find? p = some a →
      ∃ i, l.get? i = some a ∧ p a = true ∧
        ∀ j, j < i → ∀ q, l.get? j = some q → p q = false := by
  intro l
  induction l with
  | nil => intro a h; simp [List.find?] at h
  | cons x xs ih =>
    intro a h
    by_cases hx : p x
    · rw [List.find?_cons_of_pos _ hx] at h
      injection h with h
      refine ⟨0, by simp [h], by rw [← h]; exact hx, ?_⟩
      intro j hj
      omega
    · simp only [Bool.not_eq_true] at hx
      rw [List.find?_cons_of_neg _ (by simp [hx])] at h
      obtain ⟨i, hget, hpa, hbefore⟩ := ih a h
      refine ⟨i + 1, by rw [List.get?_cons_succ]; exact hget, hpa, ?_⟩
      intro j hj q hq
      cases j with
      | zero =>
        rw [List.get?_cons_zero] at hq
        injection hq with hq
        rw [← hq]
        exact hx
      | succ k =>
        rw [List.get?_cons_succ] at hq
        exact hbefore k (by omega) q hq

/-- C2 (confirmed): `load_settings` probes, in the fixed order, the six
candidates built from the environment-resolved data directory; when
none exists the result is exactly the constructed defaults (whose API
key is the environment-sourced one); when some candidate exists, the
result merges only the first existing candidate — that candidate is
first in the literal sense, the result factors through loading just
that path, and the contents of every other path (including later
candidates that also exist) cannot affect the outcome. -/
theorem claim2_first_existing_config (env : String → Option String)
    (pe : String → Bool) (fs fs2 : String → ReadResult)
    (parse parse2 : String → ParseOutcome) :
    ((configPaths (dataDir env)).find? pe = none →
      load_settings env pe fs parse = .ok (defaultSettings env (dataDir env)))
    ∧ (defaultSettings env (dataDir env)).radarr_api_key =
        .str (apiKeyFromEnv env)
    ∧ (∀ p, (configPaths (dataDir env)).find? pe = some p →
        load_settings env pe fs parse =
          (load_yaml fs parse p).bind
            (fun doc => apply_config_data (defaultSettings env (dataDir env)) doc))
    ∧ (∀ p, (configPaths (dataDir env)).find? pe = some p →
        ∃ i, (configPaths (dataDir env)).get? i = some p ∧ pe p = true ∧
          ∀ j, j < i → ∀ q, (configPaths (dataDir env)).get? j = some q →
            pe q = false)
    ∧ ((∀ p, (configPaths (dataDir env)).find? pe = some p →
          fs p = fs2 p ∧ ∀ c, fs p = .content c → parse c = parse2 c) →
        load_settings env pe fs parse = load_settings env pe fs2 parse2) := by
  have hmain : ∀ (fs3 : String → ReadResult) (parse3 : String → ParseOutcome)
      (p : String), (configPaths (dataDir env)).find? pe = some p →
      load_settings env pe fs3 parse3 =
        (load_yaml fs3 parse3 p).bind
          (fun doc => apply_config_data (defaultSettings env (dataDir env)) doc) := by
    intro fs3 parse3 p h
    have hpe : pe p = true := List.find?_some h
    simp only [load_settings, h]
    unfold load_from_yaml
    rw [if_pos hpe]
  refine ⟨?_, rfl, fun p h => hmain fs parse p h, fun p h => find?_first pe _ p h, ?_⟩
  · intro h
    simp [load_settings, h]
  · intro hagree
    cases hf : (configPaths (dataDir env)).find? pe with
    | none =>
      simp [load_settings, hf]
    | some p =>
      rw [hmain fs parse p hf, hmain fs2 parse2 p hf]
      obtain ⟨hfs, hparse⟩ := hagree p hf
      unfold load_yaml
      rw [← hfs]
      cases hc : fs p with
      | notFound => rfl
      | permissionDenied => rfl
      | content c =>
        simp only [hparse c hc]

/-- Witness for C2: with no candidate existing, the settings are
exactly the constructed defaults. -/
theorem claim2_witness :
    load_settings (fun _ => none) (fun _ => false) (fun _ => ReadResult.notFound)
      (fun _ => ParseOutcome.parserError) =
      .ok (defaultSettings (fun _ => none) "config") := by
  exact (claim2_first_existing_config (fun _ => none) (fun _ => false)
    (fun _ => ReadResult.notFound) (fun _ => ReadResult.notFound)
    (fun _ => ParseOutcome.parserError) (fun _ => ParseOutcome.parserError)).1 rfl

end Boxarr
